import Mathlib

/-!
Verification of the fireguard ingestion-to-notification pipeline.

Shallow embedding of the core components:
* `frcm/datamodel/model.py` — typed records (`WeatherDataPoint`, `WeatherData`,
  `FireRisk`, `FireRiskPrediction`); measurements are embedded as rationals
  (every operation the pipeline performs on them is an exact comparison).
* `frcm/database/db.py` — the content-addressed SQLite cache, embedded as an
  explicit state record with append-only row lists and a monotone clock that
  plays the role of the `created_at` column.
* `frcm/fireriskmodel/compute_cached.py` — the caching gateway, with the
  injected pure `compute` capability as a function parameter and an explicit
  invocation count.
* `frcm/notification/models.py`, `frcm/notification/service.py` — danger-tier
  classification and the MQTT notification service; the broker `publish` call
  is an oracle parameter (`PublishOutcome`) and Python exception propagation is
  embedded as `Except`.
* `frcm/worker/scheduled_harvester.py` — the polling worker: one fetch cycle
  over a location list with per-location exception handling, and the
  `run`/`stop` loop as a fuel-indexed trace with external stop-signal
  schedules.
-/

namespace FireGuard

/-! ## Data model (`frcm/datamodel/model.py`, reconstructed from its users) -/

/-- Modelled from the spec: `frcm/datamodel/model.py` is not in the source
tree; its record shapes are fixed by the spec's data model ("ObservationPoint:
timestamp, temperature, humidity, windSpeed") and by every caller and test in
the tree. Timestamps are abstract ticks; measurements are exact rationals. -/
structure WeatherDataPoint where
  timestamp : Nat
  temperature : Rat
  humidity : Rat
  wind_speed : Rat
deriving DecidableEq, Repr

/-- Modelled from the spec: an ObservationSet is the ordered sequence of its
points (`WeatherData(data=[...])` in the tests). -/
structure WeatherData where
  data : List WeatherDataPoint
deriving DecidableEq, Repr

/-- Modelled from the spec: a RiskPoint is `{timestamp, ttf}`. -/
structure FireRisk where
  timestamp : Nat
  ttf : Rat
deriving DecidableEq, Repr

/-- Modelled from the spec: a RiskSeries is the ordered sequence of its
points (`FireRiskPrediction(firerisks=[...])` in the tests). -/
structure FireRiskPrediction where
  firerisks : List FireRisk
deriving DecidableEq, Repr

/-! ## Content-addressed cache (`frcm/database/db.py`) -/

/-- The serialized form of one observation point: the tuple of its four
fields, mirroring one JSON object `\x7btimestamp, temperature, humidity,
wind_speed\x7d` in `WeatherData.to_json()`. -/
def serializePoint (p : WeatherDataPoint) : Nat × Rat × Rat × Rat :=
  (p.timestamp, p.temperature, p.humidity, p.wind_speed)

/-- Modelled from the spec: `Database._compute_hash` is
`hashlib.sha256(weather_data.to_json().encode()).hexdigest()`, where
`WeatherData.to_json` (in the missing `frcm/datamodel/model.py`) serializes
exactly the `data` field. The spec defines the ContentKey as "a cryptographic
fingerprint of the serialized ObservationSet"; SHA-256 is external library
code and is embedded as an idealized collision-free fingerprint, i.e. the
serialized point content itself. -/
def compute_hash (weather_data : WeatherData) : List (Nat × Rat × Rat × Rat) :=
  weather_data.data.map serializePoint

/-- A ContentKey: the (idealized) fingerprint of an observation set. -/
abbrev ContentKey := List (Nat × Rat × Rat × Rat)

/-- One row of the `weather_data` table. `data_hash` carries a UNIQUE
constraint in the schema; `created_at` is the insertion tick. -/
structure WeatherRow where
  data_hash : ContentKey
  data_json : WeatherData
  created_at : Nat
deriving DecidableEq, Repr

/-- One row of the `fire_risk_predictions` table (no uniqueness constraint:
duplicate computations for one hash are all accepted). -/
structure RiskRow where
  weather_data_hash : ContentKey
  prediction_json : FireRiskPrediction
  created_at : Nat
deriving DecidableEq, Repr

/-- The SQLite database state: two append-only tables plus a monotone clock
standing for `datetime.now(timezone.utc)`, which strictly increases with each
committed insert (successive wall-clock reads at insertion time). -/
structure Database where
  weather_data : List WeatherRow
  fire_risk_predictions : List RiskRow
  clock : Nat
deriving DecidableEq, Repr

/-- A freshly initialized database: both tables empty. -/
def Database.empty : Database :=
  { weather_data := [], fire_risk_predictions := [], clock := 0 }

/-- `Database.store_weather_data`: compute the hash, INSERT the row; a
`sqlite3.IntegrityError` from the UNIQUE constraint on `data_hash` is caught
and ignored ("Data already exists, that's fine"), leaving the table
unchanged. Returns the hash and the new state. -/
def Database.store_weather_data (db : Database) (weather_data : WeatherData) :
    ContentKey × Database :=
  let data_hash := compute_hash weather_data
  if db.weather_data.any (fun r => r.data_hash = data_hash) then
    (data_hash, db)
  else
    (data_hash,
      { db with
          weather_data :=
            db.weather_data ++
              [{ data_hash := data_hash, data_json := weather_data,
                 created_at := db.clock }]
          clock := db.clock + 1 })

/-- `Database.store_fire_risk_prediction`: unconditional INSERT of a new risk
row for the given hash. -/
def Database.store_fire_risk_prediction (db : Database) (weather_data_hash : ContentKey)
    (prediction : FireRiskPrediction) : Database :=
  { db with
      fire_risk_predictions :=
        db.fire_risk_predictions ++
          [{ weather_data_hash := weather_data_hash, prediction_json := prediction,
             created_at := db.clock }]
      clock := db.clock + 1 }

/-- `ORDER BY created_at DESC LIMIT 1`: keep the row with the largest
`created_at` (a later row wins a tie, matching append order). -/
def pickNewest (acc : Option RiskRow) (r : RiskRow) : Option RiskRow :=
  match acc with
  | none => some r
  | some b => if b.created_at ≤ r.created_at then some r else some b

/-- `Database.get_fire_risk_prediction`: SELECT the matching risk rows,
newest `created_at` first, LIMIT 1; `None` when there is no row. -/
def Database.get_fire_risk_prediction (db : Database) (weather_data_hash : ContentKey) :
    Option FireRiskPrediction :=
  ((db.fire_risk_predictions.filter
      (fun r => r.weather_data_hash = weather_data_hash)).foldl pickNewest none).map
    (fun r => r.prediction_json)

/-- `Database.get_weather_data`: SELECT the observation row for a hash. -/
def Database.get_weather_data (db : Database) (data_hash : ContentKey) :
    Option WeatherData :=
  (db.weather_data.find? (fun r => r.data_hash = data_hash)).map
    (fun r => r.data_json)

/-- Well-formedness of a database state, guaranteed by the schema and by the
monotone wall clock: every stored row predates the clock, and the UNIQUE
constraint keeps `weather_data` hashes pairwise distinct. -/
structure Database.WF (db : Database) : Prop where
  risk_lt_clock : ∀ r ∈ db.fire_risk_predictions, r.created_at < db.clock
  weather_lt_clock : ∀ r ∈ db.weather_data, r.created_at < db.clock
  hash_unique : (db.weather_data.map (fun r => r.data_hash)).Nodup

/-! ## Caching gateway (`frcm/fireriskmodel/compute_cached.py`) -/

/-- `compute_with_cache`: gateway around the injected pure `computeRisk`
capability (`compute_raw`, the risk formula, is out of scope and passed as a
function). The database reached through the `get_database` singleton is
explicit state; the third component counts how many times `computeRisk` was
invoked during the call. -/
def compute_with_cache (computeRisk : WeatherData → FireRiskPrediction)
    (wd : WeatherData) (use_cache : Bool) (db : Database) :
    FireRiskPrediction × Database × Nat :=
  if ¬use_cache then
    (computeRisk wd, db, 1)
  else
    let sr := db.store_weather_data wd
    match sr.2.get_fire_risk_prediction sr.1 with
    | some cached_prediction => (cached_prediction, sr.2, 0)
    | none =>
      let prediction := computeRisk wd
      (prediction, sr.2.store_fire_risk_prediction sr.1 prediction, 1)

/-! ## Danger tiers (`frcm/notification/models.py`) -/

/-- Fire danger levels based on time to flashover (TTF). -/
inductive FireDangerLevel where
  | LOW
  | MODERATE
  | HIGH
  | VERY_HIGH
deriving DecidableEq, Repr

/-- `FireDangerLevel.from_ttf`: determine the fire danger level from the time
to flashover, boundaries resolving downward. -/
def FireDangerLevel.from_ttf (ttf : Rat) : FireDangerLevel :=
  if ttf > 60 then .LOW
  else if ttf > 30 then .MODERATE
  else if ttf > 15 then .HIGH
  else .VERY_HIGH

/-- The `.value` string of a `FireDangerLevel` member. -/
def FireDangerLevel.value : FireDangerLevel → String
  | .LOW => "LOW"
  | .MODERATE => "MODERATE"
  | .HIGH => "HIGH"
  | .VERY_HIGH => "VERY_HIGH"

/-! ## Notification service (`frcm/notification/service.py`) -/

/-- Python `round(ttf, 2)`: round to two decimal places, ties to even. -/
def roundTo2 (q : Rat) : Rat :=
  let s : Rat := q * 100
  let f : Int := ⌊s⌋
  let i : Int :=
    if s - f < 1 / 2 then f
    else if s - f > 1 / 2 then f + 1
    else if f % 2 = 0 then f else f + 1
  (i : Rat) / 100

/-- `NotificationService._get_danger_message`: the fixed human-readable string
per tier. -/
def get_danger_message : FireDangerLevel → String
  | .LOW => "Fire danger is LOW - conditions are safe"
  | .MODERATE => "Fire danger is MODERATE - exercise caution"
  | .HIGH => "Fire danger is HIGH - be vigilant"
  | .VERY_HIGH => "Fire danger is VERY HIGH - take immediate precautions"

/-- The JSON payload handed to `client.publish` in `_publish_notification`. -/
structure Message where
  timestamp : Nat
  danger_level : String
  ttf_minutes : Rat
  text : String
deriving DecidableEq, Repr

/-- A log line emitted through `logger`. -/
inductive LogEntry where
  | info (s : String)
  | error (s : String)
deriving DecidableEq, Repr

/-- Behavior of one `client.publish(...)` call against the MQTT broker:
it returns a result carrying a return code `rc` (`0` is
`mqtt.MQTT_ERR_SUCCESS`), or it raises an exception. -/
inductive PublishOutcome where
  | ok (rc : Nat)
  | raises (e : String)
deriving DecidableEq, Repr

/-- The in-memory state of a `NotificationService`: `config.enabled`, whether
`self.client` is set (it is, whenever the service was constructed enabled),
and the tracker state `self.last_danger_level`. -/
structure NotificationService where
  enabled : Bool
  client : Bool
  last_danger_level : Option FireDangerLevel
deriving DecidableEq, Repr

/-- `NotificationService._publish_notification`: return early when there is
no client; otherwise build the message and try `client.publish`, logging
success, a non-success return code, or a caught exception. The `Except`
result embeds Python exception propagation out of the method: the try/except
block means it is always `.ok`. Returns the log lines and the list of
messages actually handed to `client.publish`. -/
def publish_notification (client : Bool) (broker : PublishOutcome)
    (timestamp : Nat) (danger_level : FireDangerLevel) (ttf : Rat) :
    Except String (List LogEntry × List Message) :=
  if ¬client then
    .ok ([], [])
  else
    let message : Message :=
      { timestamp := timestamp, danger_level := danger_level.value,
        ttf_minutes := roundTo2 ttf, text := get_danger_message danger_level }
    match broker with
    | .ok rc =>
      if rc = 0 then
        .ok ([.info ("Published fire danger change: " ++ danger_level.value)],
             [message])
      else
        .ok ([.error "Failed to publish message"], [message])
    | .raises e =>
      .ok ([.error ("Error publishing notification: " ++ e)], [message])

/-- `NotificationService.publish_fire_risk_change`: no-op when the service is
disabled or the series is empty; otherwise classify the most recent risk
point and, when the danger level is unset or changed, publish and record the
new level. An exception escaping `_publish_notification` would propagate
before `last_danger_level` is assigned, hence the `Except` plumbing. -/
def publish_fire_risk_change (st : NotificationService) (broker : PublishOutcome)
    (prediction : FireRiskPrediction) :
    Except String (NotificationService × List LogEntry × List Message) :=
  if h : ¬st.enabled ∨ prediction.firerisks = [] then
    .ok (st, [], [])
  else
    let latest_risk := prediction.firerisks.getLast (by
      intro hnil
      exact h (Or.inr hnil))
    let current_danger_level := FireDangerLevel.from_ttf latest_risk.ttf
    if st.last_danger_level = none ∨
        ¬(some current_danger_level = st.last_danger_level) then
      match publish_notification st.client broker latest_risk.timestamp
          current_danger_level latest_risk.ttf with
      | .error e => .error e
      | .ok (logs, msgs) =>
        .ok ({ st with last_danger_level := some current_danger_level }, logs, msgs)
    else
      .ok (st, [], [])

/-- Feed a sequence of predictions to one service instance against a fixed
broker behavior, counting the total number of `client.publish` calls — the
shape of the debounce tests (`mock_client.publish.call_count`). -/
def feedPredictions (st : NotificationService) (broker : PublishOutcome)
    (preds : List FireRiskPrediction) : NotificationService × Nat :=
  preds.foldl
    (fun acc p =>
      match publish_fire_risk_change acc.1 broker p with
      | .ok (st2, _, msgs) => (st2, acc.2 + msgs.length)
      | .error _ => acc)
    (st, 0)

/-! ## Scheduled harvester (`frcm/worker/scheduled_harvester.py`) -/

/-- A configured location (`frcm/worker/locations.py`). -/
structure Location where
  name : String
  latitude : Rat
  longitude : Rat
  altitude : Int := 0
deriving DecidableEq, Repr

/-- Behavior of `self.harvester.fetch_weather_data(location, hours)` together
with the rest of one location's try-block: it yields data, raises
`MetNoAPIError`, or raises some other exception. -/
inductive FetchResult where
  | ok (wd : WeatherData)
  | metError (msg : String)
  | otherError (msg : String)
deriving DecidableEq, Repr

/-- One observable event of a fetch cycle: a CSV write or a logged
per-location failure. -/
inductive CycleEvent where
  | savedWeather (loc : String) (wd : WeatherData)
  | savedRisk (loc : String) (fr : FireRiskPrediction)
  | fetchFailed (loc : String) (msg : String)
  | processFailed (loc : String) (msg : String)
deriving DecidableEq, Repr

/-- `ScheduledHarvester.fetch_and_process`: for each configured location in
order, fetch, write the weather CSV, compute the fire risk (`compute` is the
injected pure capability) and write the risk CSV; `except MetNoAPIError` and
`except Exception` catch any failure, log it, and move on to the next
location. Returns the event trace of the cycle. -/
def fetch_and_process (fetch : Location → FetchResult)
    (compute : WeatherData → FireRiskPrediction)
    (locations : List Location) : List CycleEvent :=
  locations.foldl
    (fun events location =>
      match fetch location with
      | .ok weather_data =>
        events ++ [.savedWeather location.name weather_data,
                   .savedRisk location.name (compute weather_data)]
      | .metError msg => events ++ [.fetchFailed location.name msg]
      | .otherError msg => events ++ [.processFailed location.name msg])
    []

/-- One observable event of the `run()` loop, indexed by iteration. -/
inductive LoopEvent where
  | cycle (i : Nat)
  | sleep (i : Nat)
deriving DecidableEq, Repr

/-- `ScheduledHarvester.run`: `while self.running:` execute one fetch cycle,
then `if self.running:` sleep for the update interval. `stop()` (invoked by a
caller or by the signal handler, which Python runs between bytecodes — hence
possibly inside `fetch_and_process` or inside `time.sleep`) clears the flag;
`stopDuringCycle i` / `stopDuringSleep i` say whether `stop()` fires while
iteration `i` is in its cycle / its sleep. `fuel` bounds the unrolling of the
unbounded loop; the result is the trace of cycle and sleep events. -/
def run (stopDuringCycle stopDuringSleep : Nat → Bool) :
    Nat → Nat → Bool → List LoopEvent
  | 0, _, _ => []
  | fuel + 1, i, running =>
    if running then
      LoopEvent.cycle i ::
        (let r1 := if stopDuringCycle i then false else running
         if r1 then
           LoopEvent.sleep i ::
             (let r2 := if stopDuringSleep i then false else r1
              run stopDuringCycle stopDuringSleep fuel (i + 1) r2)
         else
           run stopDuringCycle stopDuringSleep fuel (i + 1) r1)
    else []

/-- The trace of `k` clean iterations starting at index `i`: each executes
its cycle and then its full sleep. -/
def cleanTrace (i k : Nat) : List LoopEvent :=
  match k with
  | 0 => []
  | k + 1 => LoopEvent.cycle i :: LoopEvent.sleep i :: cleanTrace (i + 1) k

/-! ## Helper lemmas -/

theorem serializePoint_injective : Function.Injective serializePoint := by
  intro p q h
  cases p
  cases q
  simpa [serializePoint, Prod.ext_iff] using h

theorem Database.empty_WF : Database.empty.WF := by
  constructor <;> simp [Database.empty]

theorem store_weather_data_fst (db : Database) (wd : WeatherData) :
    (db.store_weather_data wd).1 = compute_hash wd := by
  unfold Database.store_weather_data
  dsimp only
  split <;> rfl

theorem store_weather_data_risks (db : Database) (wd : WeatherData) :
    (db.store_weather_data wd).2.fire_risk_predictions = db.fire_risk_predictions := by
  unfold Database.store_weather_data
  dsimp only
  split <;> rfl

theorem store_weather_data_clock_le (db : Database) (wd : WeatherData) :
    db.clock ≤ (db.store_weather_data wd).2.clock := by
  unfold Database.store_weather_data
  dsimp only
  split <;> simp

theorem Database.WF.store_weather {db : Database} (hwf : db.WF) (wd : WeatherData) :
    (db.store_weather_data wd).2.WF := by
  unfold Database.store_weather_data
  dsimp only
  split
  · exact hwf
  · rename_i habs
    refine ⟨?_, ?_, ?_⟩
    · intro r hr
      exact Nat.lt_succ_of_lt (hwf.risk_lt_clock r hr)
    · intro r hr
      simp only [List.mem_append, List.mem_singleton] at hr
      rcases hr with hr | hr
      · exact Nat.lt_succ_of_lt (hwf.weather_lt_clock r hr)
      · subst hr
        exact Nat.lt_succ_self _
    · simp only [List.map_append, List.map_cons, List.map_nil]
      rw [List.nodup_append]
      refine ⟨hwf.hash_unique, List.nodup_singleton _, ?_⟩
      intro k hk
      simp only [List.mem_map] at hk
      obtain ⟨r, hr, hrk⟩ := hk
      simp only [List.mem_singleton]
      intro hcontra
      subst hcontra
      simp only [List.any_eq_true, decide_eq_true_eq] at habs
      exact habs ⟨r, hr, hrk⟩

theorem Database.WF.store_risk {db : Database} (hwf : db.WF) (k : ContentKey)
    (p : FireRiskPrediction) : (db.store_fire_risk_prediction k p).WF := by
  refine ⟨?_, ?_, ?_⟩
  · intro r hr
    simp only [Database.store_fire_risk_prediction, List.mem_append,
      List.mem_singleton] at hr
    rcases hr with hr | hr
    · exact Nat.lt_succ_of_lt (hwf.risk_lt_clock r hr)
    · subst hr
      exact Nat.lt_succ_self _
  · intro r hr
    exact Nat.lt_succ_of_lt (hwf.weather_lt_clock r hr)
  · exact hwf.hash_unique

theorem foldl_pickNewest_cases (l : List RiskRow) (acc : Option RiskRow) :
    l.foldl pickNewest acc = acc ∨ ∃ r ∈ l, l.foldl pickNewest acc = some r := by
  induction l generalizing acc with
  | nil => exact Or.inl rfl
  | cons x xs ih =>
    simp only [List.foldl_cons]
    rcases ih (pickNewest acc x) with h | ⟨r, hr, h⟩
    · rw [h]
      unfold pickNewest
      match acc with
      | none => exact Or.inr ⟨x, List.mem_cons_self .., rfl⟩
      | some b =>
        by_cases hle : b.created_at ≤ x.created_at
        · exact Or.inr ⟨x, List.mem_cons_self .., by simp [hle]⟩
        · exact Or.inl (by simp [hle])
    · exact Or.inr ⟨r, List.mem_cons_of_mem _ hr, h⟩

theorem foldl_pickNewest_append_newest (l : List RiskRow) (x : RiskRow)
    (h : ∀ r ∈ l, r.created_at < x.created_at) :
    (l ++ [x]).foldl pickNewest none = some x := by
  rw [List.foldl_append]
  rcases foldl_pickNewest_cases l none with hc | ⟨r, hr, hc⟩ <;> rw [hc]
  · rfl
  · simp [pickNewest, Nat.le_of_lt (h r hr)]

theorem get_fire_risk_prediction_none (db : Database) (k : ContentKey)
    (h : ∀ r ∈ db.fire_risk_predictions, r.weather_data_hash ≠ k) :
    db.get_fire_risk_prediction k = none := by
  unfold Database.get_fire_risk_prediction
  have hfil : db.fire_risk_predictions.filter (fun r => r.weather_data_hash = k) = [] := by
    rw [List.filter_eq_nil_iff]
    intro r hr
    simp [h r hr]
  rw [hfil]
  rfl

theorem get_after_store_risk (db : Database) (k : ContentKey) (p : FireRiskPrediction)
    (hwf : ∀ r ∈ db.fire_risk_predictions, r.created_at < db.clock) :
    (db.store_fire_risk_prediction k p).get_fire_risk_prediction k = some p := by
  unfold Database.get_fire_risk_prediction Database.store_fire_risk_prediction
  simp only [List.filter_append]
  have hx : List.filter (fun r => decide (r.weather_data_hash = k))
      [RiskRow.mk k p db.clock] = [RiskRow.mk k p db.clock] := by
    simp [List.filter]
  rw [hx, foldl_pickNewest_append_newest]
  · rfl
  · intro r hr
    exact hwf r (List.mem_of_mem_filter hr)

theorem filter_hash_length_one (l : List WeatherRow) (k : ContentKey)
    (hnd : (l.map (fun r => r.data_hash)).Nodup)
    (hx : ∃ r ∈ l, r.data_hash = k) :
    (l.filter (fun r => r.data_hash = k)).length = 1 := by
  induction l with
  | nil => simp at hx
  | cons a l ih =>
    simp only [List.map_cons, List.nodup_cons, List.mem_map] at hnd
    obtain ⟨hna, hnd⟩ := hnd
    by_cases hk : a.data_hash = k
    · have hfl : l.filter (fun r => r.data_hash = k) = [] := by
        rw [List.filter_eq_nil_iff]
        intro r hr
        simp only [decide_eq_true_eq]
        intro hrk
        exact hna ⟨r, hr, by rw [hrk, hk]⟩
      simp [List.filter, hk, hfl]
    · have hx2 : ∃ r ∈ l, r.data_hash = k := by
        rcases hx with ⟨r, hr, hrk⟩
        rcases List.mem_cons.1 hr with hr | hr
        · exact absurd (hr ▸ hrk) hk
        · exact ⟨r, hr, hrk⟩
      simpa [List.filter, hk] using ih hnd hx2

theorem store_weather_data_mem (db : Database) (wd : WeatherData) :
    ∃ r ∈ (db.store_weather_data wd).2.weather_data, r.data_hash = compute_hash wd := by
  unfold Database.store_weather_data
  dsimp only
  split
  · rename_i h
    simp only [List.any_eq_true, decide_eq_true_eq] at h
    exact h
  · exact ⟨_, List.mem_append_right _ (List.mem_singleton_self _), rfl⟩

theorem store_weather_data_noop (db : Database) (wd : WeatherData)
    (h : ∃ r ∈ db.weather_data, r.data_hash = compute_hash wd) :
    db.store_weather_data wd = (compute_hash wd, db) := by
  unfold Database.store_weather_data
  dsimp only
  rw [if_pos]
  simp only [List.any_eq_true, decide_eq_true_eq]
  exact h

theorem get_eq_of_risks_eq (db1 db2 : Database) (k : ContentKey)
    (h : db1.fire_risk_predictions = db2.fire_risk_predictions) :
    db1.get_fire_risk_prediction k = db2.get_fire_risk_prediction k := by
  unfold Database.get_fire_risk_prediction
  rw [h]

/-! ## Claim theorems -/

/-- C3: `FireDangerLevel.from_ttf` resolves boundaries downward: ttf > 60
gives LOW, 30 < ttf ≤ 60 gives MODERATE, 15 < ttf ≤ 30 gives HIGH, ttf ≤ 15
gives VERY_HIGH; and the eight boundary examples evaluate as the spec
states. -/
theorem from_ttf_boundaries :
    (∀ ttf : Rat, 60 < ttf → FireDangerLevel.from_ttf ttf = .LOW) ∧
    (∀ ttf : Rat, 30 < ttf → ttf ≤ 60 → FireDangerLevel.from_ttf ttf = .MODERATE) ∧
    (∀ ttf : Rat, 15 < ttf → ttf ≤ 30 → FireDangerLevel.from_ttf ttf = .HIGH) ∧
    (∀ ttf : Rat, ttf ≤ 15 → FireDangerLevel.from_ttf ttf = .VERY_HIGH) ∧
    FireDangerLevel.from_ttf 61 = .LOW ∧
    FireDangerLevel.from_ttf 60 = .MODERATE ∧
    FireDangerLevel.from_ttf 45 = .MODERATE ∧
    FireDangerLevel.from_ttf 31 = .MODERATE ∧
    FireDangerLevel.from_ttf 30 = .HIGH ∧
    FireDangerLevel.from_ttf 16 = .HIGH ∧
    FireDangerLevel.from_ttf 15 = .VERY_HIGH ∧
    FireDangerLevel.from_ttf 5 = .VERY_HIGH := by
  refine ⟨?_, ?_, ?_, ?_, ?_, ?_, ?_, ?_, ?_, ?_, ?_, ?_⟩
  · intro ttf h
    simp [FireDangerLevel.from_ttf, h]
  · intro ttf h1 h2
    simp [FireDangerLevel.from_ttf, h1, not_lt.2 h2]
  · intro ttf h1 h2
    have h60 : ¬(60 : Rat) < ttf := not_lt.2 (le_trans h2 (by norm_num))
    simp [FireDangerLevel.from_ttf, h1, not_lt.2 h2, h60]
  · intro ttf h
    have h60 : ¬(60 : Rat) < ttf := not_lt.2 (le_trans h (by norm_num))
    have h30 : ¬(30 : Rat) < ttf := not_lt.2 (le_trans h (by norm_num))
    simp [FireDangerLevel.from_ttf, h60, h30, not_lt.2 h]
  all_goals decide

/-- C3 witness: the first (hypothesis-bearing) conjunct at the concrete
input 61. -/
theorem from_ttf_boundaries_witness :
    (60 : Rat) < 61 ∧ FireDangerLevel.from_ttf 61 = .LOW :=
  ⟨by norm_num, from_ttf_boundaries.1 61 (by norm_num)⟩

/-- C6: the fingerprint is pure and deterministic — `compute_hash A =
compute_hash A` always; two sets with identical point data have equal keys
(the key depends on nothing but the point data, in particular not on storage
timestamps, which live outside the hashed serialization); and two sets whose
point data differ in any single measurement have different keys. -/
theorem compute_hash_deterministic :
    (∀ A : WeatherData, compute_hash A = compute_hash A) ∧
    (∀ A B : WeatherData, A.data = B.data → compute_hash A = compute_hash B) ∧
    (∀ A B : WeatherData,
      (∃ i : Nat, ∃ hA : i < A.data.length, ∃ hB : i < B.data.length,
        A.data.get ⟨i, hA⟩ ≠ B.data.get ⟨i, hB⟩) →
      compute_hash A ≠ compute_hash B) := by
  refine ⟨fun A => rfl, ?_, ?_⟩
  · intro A B h
    unfold compute_hash
    rw [h]
  · rintro ⟨la⟩ ⟨lb⟩ ⟨i, hA, hB, hne⟩ heq
    unfold compute_hash at heq
    simp only at heq hA hB hne
    have hd : la = lb := List.map_injective_iff.2 serializePoint_injective heq
    subst hd
    exact hne rfl

/-- C6 witness: two one-point sets differing only in temperature get
different keys. -/
theorem compute_hash_deterministic_witness :
    compute_hash (WeatherData.mk [WeatherDataPoint.mk 0 10 80 5]) ≠
      compute_hash (WeatherData.mk [WeatherDataPoint.mk 0 15 80 5]) :=
  compute_hash_deterministic.2.2 _ _
    ⟨0, by decide, by decide, by decide⟩

/-- C2: storing the same observation set twice returns the same ContentKey
both times, the second call is a no-op leaving the database state untouched
(and in particular never an error and never a modification of the existing
row), and afterwards exactly one observation row carries that key. -/
theorem store_weather_data_idempotent (db : Database) (A : WeatherData) (hwf : db.WF) :
    ((db.store_weather_data A).2.store_weather_data A).1 = (db.store_weather_data A).1 ∧
    ((db.store_weather_data A).2.store_weather_data A).2 = (db.store_weather_data A).2 ∧
    (((db.store_weather_data A).2.store_weather_data A).2.weather_data.filter
      (fun r => r.data_hash = (db.store_weather_data A).1)).length = 1 := by
  have hmem := store_weather_data_mem db A
  have hnoop := store_weather_data_noop (db.store_weather_data A).2 A hmem
  refine ⟨?_, ?_, ?_⟩
  · rw [hnoop, store_weather_data_fst]
  · rw [hnoop]
  · rw [hnoop]
    dsimp only
    rw [store_weather_data_fst]
    exact filter_hash_length_one _ _ (hwf.store_weather A).hash_unique hmem

/-- C2 witness: the double store on a fresh database with a one-point set. -/
theorem store_weather_data_idempotent_witness :
    ((Database.empty.store_weather_data
        (WeatherData.mk [WeatherDataPoint.mk 0 10 80 5])).2.store_weather_data
      (WeatherData.mk [WeatherDataPoint.mk 0 10 80 5])).1 =
      (Database.empty.store_weather_data (WeatherData.mk [WeatherDataPoint.mk 0 10 80 5])).1 ∧
    ((Database.empty.store_weather_data
        (WeatherData.mk [WeatherDataPoint.mk 0 10 80 5])).2.store_weather_data
      (WeatherData.mk [WeatherDataPoint.mk 0 10 80 5])).2 =
      (Database.empty.store_weather_data (WeatherData.mk [WeatherDataPoint.mk 0 10 80 5])).2 ∧
    (((Database.empty.store_weather_data
        (WeatherData.mk [WeatherDataPoint.mk 0 10 80 5])).2.store_weather_data
      (WeatherData.mk [WeatherDataPoint.mk 0 10 80 5])).2.weather_data.filter
      (fun r => r.data_hash =
        (Database.empty.store_weather_data
          (WeatherData.mk [WeatherDataPoint.mk 0 10 80 5])).1)).length = 1 :=
  store_weather_data_idempotent Database.empty
    (WeatherData.mk [WeatherDataPoint.mk 0 10 80 5]) Database.empty_WF

/-- C5: `get_fire_risk_prediction` returns `none` for a key no risk row was
ever stored under, and directly after any `store_fire_risk_prediction(k, s)`
it returns the just-written association — the most recently written one,
whatever rows (including earlier rows for the same key) the database already
held. -/
theorem get_fire_risk_prediction_newest (db : Database) (k : ContentKey)
    (s : FireRiskPrediction) (hwf : db.WF) :
    ((∀ r ∈ db.fire_risk_predictions, r.weather_data_hash ≠ k) →
      db.get_fire_risk_prediction k = none) ∧
    (db.store_fire_risk_prediction k s).get_fire_risk_prediction k = some s :=
  ⟨get_fire_risk_prediction_none db k, get_after_store_risk db k s hwf.risk_lt_clock⟩

/-- C5 witness: an empty database returns `none`; after one store it returns
the stored series. -/
theorem get_fire_risk_prediction_newest_witness :
    Database.empty.get_fire_risk_prediction
        (compute_hash (WeatherData.mk [WeatherDataPoint.mk 0 10 80 5])) = none ∧
    (Database.empty.store_fire_risk_prediction
        (compute_hash (WeatherData.mk [WeatherDataPoint.mk 0 10 80 5]))
        (FireRiskPrediction.mk [FireRisk.mk 0 5])).get_fire_risk_prediction
      (compute_hash (WeatherData.mk [WeatherDataPoint.mk 0 10 80 5])) =
      some (FireRiskPrediction.mk [FireRisk.mk 0 5]) :=
  ⟨(get_fire_risk_prediction_newest Database.empty _
      (FireRiskPrediction.mk [FireRisk.mk 0 5]) Database.empty_WF).1
    (by simp [Database.empty]),
   (get_fire_risk_prediction_newest Database.empty _
      (FireRiskPrediction.mk [FireRisk.mk 0 5]) Database.empty_WF).2⟩

/-- C1: starting from a cache holding no risk association for `A`'s key, two
`compute_with_cache(A, use_cache := true)` calls against the same cache return
equal risk series, `computeRisk` runs exactly once in total — on the first
call — and the first call leaves the computed result stored in the cache. -/
theorem compute_with_cache_single_invocation (f : WeatherData → FireRiskPrediction)
    (A : WeatherData) (db : Database) (hwf : db.WF)
    (hfresh : ∀ r ∈ db.fire_risk_predictions, r.weather_data_hash ≠ compute_hash A) :
    (compute_with_cache f A true db).1 =
      (compute_with_cache f A true (compute_with_cache f A true db).2.1).1 ∧
    (compute_with_cache f A true db).2.2 = 1 ∧
    (compute_with_cache f A true (compute_with_cache f A true db).2.1).2.2 = 0 ∧
    (compute_with_cache f A true db).2.1.get_fire_risk_prediction (compute_hash A) =
      some (compute_with_cache f A true db).1 := by
  have hmiss : (db.store_weather_data A).2.get_fire_risk_prediction
      (db.store_weather_data A).1 = none := by
    rw [store_weather_data_fst]
    apply get_fire_risk_prediction_none
    rw [store_weather_data_risks]
    exact hfresh
  have e1 : compute_with_cache f A true db =
      (f A, (db.store_weather_data A).2.store_fire_risk_prediction
        (db.store_weather_data A).1 (f A), 1) := by
    unfold compute_with_cache
    dsimp only
    rw [if_neg (by simp), hmiss]
  have hhit : (((db.store_weather_data A).2.store_fire_risk_prediction
        (db.store_weather_data A).1 (f A)).store_weather_data A).2.get_fire_risk_prediction
      (((db.store_weather_data A).2.store_fire_risk_prediction
        (db.store_weather_data A).1 (f A)).store_weather_data A).1 = some (f A) := by
    rw [store_weather_data_fst ((db.store_weather_data A).2.store_fire_risk_prediction
        (db.store_weather_data A).1 (f A)) A,
      get_eq_of_risks_eq _ ((db.store_weather_data A).2.store_fire_risk_prediction
        (db.store_weather_data A).1 (f A)) _ (store_weather_data_risks _ _),
      store_weather_data_fst db A]
    exact get_after_store_risk _ _ _ (hwf.store_weather A).risk_lt_clock
  have e2 : compute_with_cache f A true
      ((db.store_weather_data A).2.store_fire_risk_prediction
        (db.store_weather_data A).1 (f A)) =
      (f A, (((db.store_weather_data A).2.store_fire_risk_prediction
        (db.store_weather_data A).1 (f A)).store_weather_data A).2, 0) := by
    unfold compute_with_cache
    dsimp only
    rw [if_neg (by simp), hhit]
  refine ⟨?_, ?_, ?_, ?_⟩
  · rw [e1]
    dsimp only
    rw [e2]
  · rw [e1]
  · rw [e1]
    dsimp only
    rw [e2]
  · rw [e1]
    dsimp only
    rw [store_weather_data_fst db A]
    exact get_after_store_risk _ _ _ (hwf.store_weather A).risk_lt_clock

/-- C1 witness: a concrete pure computation on a fresh cache. -/
theorem compute_with_cache_single_invocation_witness :
    (compute_with_cache (fun _ => FireRiskPrediction.mk [FireRisk.mk 0 42])
        (WeatherData.mk [WeatherDataPoint.mk 0 10 80 5]) true Database.empty).2.2 = 1 ∧
    (compute_with_cache (fun _ => FireRiskPrediction.mk [FireRisk.mk 0 42])
        (WeatherData.mk [WeatherDataPoint.mk 0 10 80 5]) true
        (compute_with_cache (fun _ => FireRiskPrediction.mk [FireRisk.mk 0 42])
          (WeatherData.mk [WeatherDataPoint.mk 0 10 80 5]) true Database.empty).2.1).2.2 = 0 :=
  ⟨(compute_with_cache_single_invocation (fun _ => FireRiskPrediction.mk [FireRisk.mk 0 42])
      (WeatherData.mk [WeatherDataPoint.mk 0 10 80 5]) Database.empty Database.empty_WF
      (by simp [Database.empty])).2.1,
   (compute_with_cache_single_invocation (fun _ => FireRiskPrediction.mk [FireRisk.mk 0 42])
      (WeatherData.mk [WeatherDataPoint.mk 0 10 80 5]) Database.empty Database.empty_WF
      (by simp [Database.empty])).2.2.1⟩

theorem publish_notification_ok_with_client (broker : PublishOutcome) (ts : Nat)
    (lvl : FireDangerLevel) (ttf : Rat) :
    ∃ logs msg, publish_notification true broker ts lvl ttf = .ok (logs, [msg]) := by
  cases broker with
  | ok rc =>
    by_cases hrc : rc = 0
    · exact ⟨[.info ("Published fire danger change: " ++ lvl.value)],
        { timestamp := ts, danger_level := lvl.value, ttf_minutes := roundTo2 ttf,
          text := get_danger_message lvl }, by simp [publish_notification, hrc]⟩
    · exact ⟨[.error "Failed to publish message"],
        { timestamp := ts, danger_level := lvl.value, ttf_minutes := roundTo2 ttf,
          text := get_danger_message lvl }, by simp [publish_notification, hrc]⟩
  | raises e =>
    exact ⟨[.error ("Error publishing notification: " ++ e)],
      { timestamp := ts, danger_level := lvl.value, ttf_minutes := roundTo2 ttf,
        text := get_danger_message lvl }, by simp [publish_notification]⟩

theorem publish_notification_ok (client : Bool) (broker : PublishOutcome) (ts : Nat)
    (lvl : FireDangerLevel) (ttf : Rat) :
    ∃ out, publish_notification client broker ts lvl ttf = .ok out := by
  cases client with
  | false => exact ⟨([], []), by simp [publish_notification]⟩
  | true =>
    obtain ⟨logs, msg, h⟩ := publish_notification_ok_with_client broker ts lvl ttf
    exact ⟨(logs, [msg]), h⟩

/-- C4: on an enabled service, an empty series is a no-op (nothing published,
`last_danger_level` untouched); a non-empty series is classified at its
chronologically last point and exactly one message is handed to
`client.publish` precisely when the last level is unset or different, with
the level then recorded; and the debounce examples hold — the ttf sequence
[20, 10] triggers two publishes, [20, 25] exactly one. -/
theorem publish_fire_risk_change_debounce :
    (∀ (st : NotificationService) (broker : PublishOutcome),
      st.enabled = true →
        publish_fire_risk_change st broker (FireRiskPrediction.mk []) = .ok (st, [], [])) ∧
    (∀ (st : NotificationService) (broker : PublishOutcome) (pred : FireRiskPrediction)
      (h : pred.firerisks ≠ []),
      st.enabled = true → st.client = true →
      ((st.last_danger_level = none ∨
          some (FireDangerLevel.from_ttf (pred.firerisks.getLast h).ttf) ≠
            st.last_danger_level) →
        ∃ logs msg, publish_fire_risk_change st broker pred =
          .ok ({ st with last_danger_level := some (FireDangerLevel.from_ttf (pred.firerisks.getLast h).ttf) }, logs, [msg])) ∧
      (some (FireDangerLevel.from_ttf (pred.firerisks.getLast h).ttf) =
          st.last_danger_level →
        publish_fire_risk_change st broker pred = .ok (st, [], []))) ∧
    (feedPredictions (NotificationService.mk true true none) (.ok 0)
      [FireRiskPrediction.mk [FireRisk.mk 0 20],
       FireRiskPrediction.mk [FireRisk.mk 1 10]]).2 = 2 ∧
    (feedPredictions (NotificationService.mk true true none) (.ok 0)
      [FireRiskPrediction.mk [FireRisk.mk 0 20],
       FireRiskPrediction.mk [FireRisk.mk 1 25]]).2 = 1 := by
  refine ⟨?_, ?_, by decide, by decide⟩
  · intro st broker he
    unfold publish_fire_risk_change
    rw [dif_pos (Or.inr rfl)]
  · intro st broker pred h he hc
    constructor
    · intro hcond
      unfold publish_fire_risk_change
      rw [dif_neg (by simp [he, h])]
      dsimp only
      rw [if_pos hcond]
      obtain ⟨logs, msg, hpn⟩ := publish_notification_ok_with_client broker
        (pred.firerisks.getLast h).timestamp
        (FireDangerLevel.from_ttf (pred.firerisks.getLast h).ttf)
        (pred.firerisks.getLast h).ttf
      rw [hc, hpn]
      exact ⟨logs, msg, rfl⟩
    · intro hsame
      unfold publish_fire_risk_change
      rw [dif_neg (by simp [he, h])]
      dsimp only
      rw [if_neg (by rw [← hsame]; simp)]

/-- C4 witness: the publish branch at a fresh enabled service and ttf 20
(tier HIGH). -/
theorem publish_fire_risk_change_debounce_witness :
    ∃ logs msg, publish_fire_risk_change (NotificationService.mk true true none) (.ok 0)
      (FireRiskPrediction.mk [FireRisk.mk 0 20]) =
      .ok (NotificationService.mk true true (some .HIGH), logs, [msg]) :=
  (publish_fire_risk_change_debounce.2.1 (NotificationService.mk true true none) (.ok 0)
    (FireRiskPrediction.mk [FireRisk.mk 0 20]) (by simp) rfl rfl).1 (Or.inl rfl)

/-- C9: `_publish_notification` never propagates a broker failure to its
caller — for every broker behavior it returns normally — and with a client
present, a raised exception or a non-success return code is logged as an
error. -/
theorem publish_notification_never_propagates :
    ∀ (client : Bool) (broker : PublishOutcome) (ts : Nat) (lvl : FireDangerLevel)
      (ttf : Rat),
    ∃ out, publish_notification client broker ts lvl ttf = .ok out ∧
      (∀ e, client = true → broker = .raises e →
        out.1 = [.error ("Error publishing notification: " ++ e)]) ∧
      (∀ rc, client = true → broker = .ok rc → rc ≠ 0 →
        out.1 = [.error "Failed to publish message"]) := by
  intro client broker ts lvl ttf
  cases client with
  | false =>
    refine ⟨([], []), by simp [publish_notification], ?_, ?_⟩
    · intro e hc
      exact absurd hc (by simp)
    · intro rc hc
      exact absurd hc (by simp)
  | true =>
    cases broker with
    | raises e =>
      refine ⟨([.error ("Error publishing notification: " ++ e)],
        [{ timestamp := ts, danger_level := lvl.value, ttf_minutes := roundTo2 ttf,
           text := get_danger_message lvl }]), by simp [publish_notification], ?_, ?_⟩
      · intro e2 _ heq
        cases heq
        rfl
      · intro rc _ heq
        cases heq
    | ok rc =>
      by_cases hrc : rc = 0
      · subst hrc
        refine ⟨([.info ("Published fire danger change: " ++ lvl.value)],
          [{ timestamp := ts, danger_level := lvl.value, ttf_minutes := roundTo2 ttf,
             text := get_danger_message lvl }]), by simp [publish_notification], ?_, ?_⟩
        · intro e _ heq
          cases heq
        · intro rc2 _ heq hne
          injection heq with h2
          exact absurd h2.symm hne
      · refine ⟨([.error "Failed to publish message"],
          [{ timestamp := ts, danger_level := lvl.value, ttf_minutes := roundTo2 ttf,
             text := get_danger_message lvl }]), by simp [publish_notification, hrc],
          ?_, ?_⟩
        · intro e _ heq
          cases heq
        · intro rc2 _ _ _
          rfl

/-- C9 witness: a broker that raises, at a concrete call. -/
theorem publish_notification_never_propagates_witness :
    ∃ out, publish_notification true (.raises "boom") 0 .LOW 20 = .ok out ∧
      (∀ e, true = true → PublishOutcome.raises "boom" = .raises e →
        out.1 = [.error ("Error publishing notification: " ++ e)]) ∧
      (∀ rc, true = true → PublishOutcome.raises "boom" = .ok rc → rc ≠ 0 →
        out.1 = [.error "Failed to publish message"]) :=
  publish_notification_never_propagates true (.raises "boom") 0 .LOW 20

/-- C10: whenever an enabled service sees a tier change (or an unset last
level) on a non-empty series, `last_danger_level` is set to the new tier for
every possible broker outcome — success, non-success return code, or raised
exception — so a failed publish is not retried while the tier stays put. -/
theorem publish_sets_last_level_regardless (st : NotificationService)
    (broker : PublishOutcome) (pred : FireRiskPrediction) (h : pred.firerisks ≠ [])
    (he : st.enabled = true)
    (hch : st.last_danger_level = none ∨
      some (FireDangerLevel.from_ttf (pred.firerisks.getLast h).ttf) ≠
        st.last_danger_level) :
    ∃ logs msgs, publish_fire_risk_change st broker pred =
      .ok ({ st with last_danger_level := some (FireDangerLevel.from_ttf (pred.firerisks.getLast h).ttf) }, logs, msgs) := by
  unfold publish_fire_risk_change
  rw [dif_neg (by simp [he, h])]
  dsimp only
  rw [if_pos hch]
  obtain ⟨⟨logs, msgs⟩, hout⟩ := publish_notification_ok st.client broker
    (pred.firerisks.getLast h).timestamp
    (FireDangerLevel.from_ttf (pred.firerisks.getLast h).ttf)
    (pred.firerisks.getLast h).ttf
  rw [hout]
  exact ⟨logs, msgs, rfl⟩

/-- C10 witness: the level is recorded even though the broker raises. -/
theorem publish_sets_last_level_regardless_witness :
    ∃ logs msgs, publish_fire_risk_change (NotificationService.mk true true none)
      (.raises "boom") (FireRiskPrediction.mk [FireRisk.mk 0 20]) =
      .ok (NotificationService.mk true true (some .HIGH), logs, msgs) :=
  publish_sets_last_level_regardless (NotificationService.mk true true none)
    (.raises "boom") (FireRiskPrediction.mk [FireRisk.mk 0 20]) (by simp) rfl (Or.inl rfl)

/-- C7: within one `fetch_and_process` cycle, a failure for one location —
whether a `MetNoAPIError` from the fetch or any other processing exception —
is caught and logged, and only that location is skipped: with the first
location failing and the second succeeding, the cycle still performs the
second location's full fetch-compute-write processing and runs to
completion. -/
theorem fetch_and_process_isolation (fetch : Location → FetchResult)
    (compute : WeatherData → FireRiskPrediction) (l1 l2 : Location) (msg : String)
    (wd : WeatherData) (hok : fetch l2 = .ok wd) :
    (fetch l1 = .metError msg →
      fetch_and_process fetch compute [l1, l2] =
        [.fetchFailed l1.name msg, .savedWeather l2.name wd,
         .savedRisk l2.name (compute wd)]) ∧
    (fetch l1 = .otherError msg →
      fetch_and_process fetch compute [l1, l2] =
        [.processFailed l1.name msg, .savedWeather l2.name wd,
         .savedRisk l2.name (compute wd)]) := by
  constructor <;> intro h1 <;> simp [fetch_and_process, h1, hok]

/-- C7 witness: location A's fetch raises, location B succeeds; B is fully
processed and A's failure is logged. -/
theorem fetch_and_process_isolation_witness :
    fetch_and_process
      (fun l => if l.name = "A" then FetchResult.metError "down"
                else FetchResult.ok (WeatherData.mk [WeatherDataPoint.mk 0 10 80 5]))
      (fun _ => FireRiskPrediction.mk [FireRisk.mk 0 42])
      [Location.mk "A" 60 5 0, Location.mk "B" 61 6 0] =
      [.fetchFailed "A" "down",
       .savedWeather "B" (WeatherData.mk [WeatherDataPoint.mk 0 10 80 5]),
       .savedRisk "B" (FireRiskPrediction.mk [FireRisk.mk 0 42])] :=
  (fetch_and_process_isolation
    (fun l => if l.name = "A" then FetchResult.metError "down"
              else FetchResult.ok (WeatherData.mk [WeatherDataPoint.mk 0 10 80 5]))
    (fun _ => FireRiskPrediction.mk [FireRisk.mk 0 42])
    (Location.mk "A" 60 5 0) (Location.mk "B" 61 6 0) "down"
    (WeatherData.mk [WeatherDataPoint.mk 0 10 80 5]) (by simp)).1 (by simp)

theorem run_not_running (sC sS : Nat → Bool) (fuel i : Nat) :
    run sC sS fuel i false = [] := by
  cases fuel <;> simp [run]

theorem run_step_clean (sC sS : Nat → Bool) (fuel i : Nat)
    (hC : sC i = false) (hS : sS i = false) :
    run sC sS (fuel + 1) i true =
      LoopEvent.cycle i :: LoopEvent.sleep i :: run sC sS fuel (i + 1) true := by
  simp [run, hC, hS]

theorem run_step_stop_in_sleep (sC sS : Nat → Bool) (fuel i : Nat)
    (hC : sC i = false) (hS : sS i = true) :
    run sC sS (fuel + 1) i true =
      LoopEvent.cycle i :: LoopEvent.sleep i :: run sC sS fuel (i + 1) false := by
  simp [run, hC, hS]

theorem run_step_stop_in_cycle (sC sS : Nat → Bool) (fuel i : Nat)
    (hC : sC i = true) :
    run sC sS (fuel + 1) i true =
      LoopEvent.cycle i :: run sC sS fuel (i + 1) false := by
  simp [run, hC]

theorem run_trace_stop_in_sleep (sC sS : Nat → Bool) (k : Nat) :
    ∀ i fuel, (∀ j, j < k + 1 → sC (i + j) = false) →
    (∀ j, j < k → sS (i + j) = false) → sS (i + k) = true → k + 2 ≤ fuel →
    run sC sS fuel i true = cleanTrace i (k + 1) := by
  induction k with
  | zero =>
    intro i fuel hC hS hstop hfuel
    cases fuel with
    | zero => omega
    | succ f =>
      rw [run_step_stop_in_sleep sC sS f i (by simpa using hC 0 (by omega))
        (by simpa using hstop), run_not_running]
      rfl
  | succ k ih =>
    intro i fuel hC hS hstop hfuel
    cases fuel with
    | zero => omega
    | succ f =>
      rw [run_step_clean sC sS f i (by simpa using hC 0 (by omega))
        (by simpa using hS 0 (by omega))]
      rw [ih (i + 1) f
        (fun j hj => by
          have := hC (j + 1) (by omega)
          rwa [show i + (j + 1) = i + 1 + j by omega] at this)
        (fun j hj => by
          have := hS (j + 1) (by omega)
          rwa [show i + (j + 1) = i + 1 + j by omega] at this)
        (by rwa [show i + 1 + k = i + (k + 1) by omega])
        (by omega)]
      rfl

theorem run_trace_stop_in_cycle (sC sS : Nat → Bool) (k : Nat) :
    ∀ i fuel, (∀ j, j < k → sC (i + j) = false) →
    (∀ j, j < k → sS (i + j) = false) → sC (i + k) = true → k + 2 ≤ fuel →
    run sC sS fuel i true = cleanTrace i k ++ [LoopEvent.cycle (i + k)] := by
  induction k with
  | zero =>
    intro i fuel hC hS hstop hfuel
    cases fuel with
    | zero => omega
    | succ f =>
      rw [run_step_stop_in_cycle sC sS f i (by simpa using hstop), run_not_running]
      simp [cleanTrace]
  | succ k ih =>
    intro i fuel hC hS hstop hfuel
    cases fuel with
    | zero => omega
    | succ f =>
      rw [run_step_clean sC sS f i (by simpa using hC 0 (by omega))
        (by simpa using hS 0 (by omega))]
      rw [ih (i + 1) f
        (fun j hj => by
          have := hC (j + 1) (by omega)
          rwa [show i + (j + 1) = i + 1 + j by omega] at this)
        (fun j hj => by
          have := hS (j + 1) (by omega)
          rwa [show i + (j + 1) = i + 1 + j by omega] at this)
        (by rwa [show i + 1 + k = i + (k + 1) by omega])
        (by omega)]
      simp [cleanTrace]
      omega

/-- C8: the `run()` loop checks `self.running` at the top of every iteration
and again before sleeping. With the flag already cleared, no iteration runs
at all; if `stop()` fires during the sleep of iteration `k` the trace is
exactly `k + 1` full cycle/sleep pairs — no further fetch cycle executes and
the loop terminates at the cycle boundary, for any larger fuel; if `stop()`
fires during the cycle of iteration `k`, that cycle still completes (it is
never cut short), after which the loop skips the sleep and exits. -/
theorem run_stop_semantics (sC sS : Nat → Bool) (fuel i k : Nat) :
    run sC sS fuel i false = [] ∧
    ((∀ j, j < k + 1 → sC (i + j) = false) → (∀ j, j < k → sS (i + j) = false) →
      sS (i + k) = true → k + 2 ≤ fuel →
      run sC sS fuel i true = cleanTrace i (k + 1)) ∧
    ((∀ j, j < k → sC (i + j) = false) → (∀ j, j < k → sS (i + j) = false) →
      sC (i + k) = true → k + 2 ≤ fuel →
      run sC sS fuel i true = cleanTrace i k ++ [LoopEvent.cycle (i + k)]) :=
  ⟨run_not_running sC sS fuel i,
   fun hC hS hstop hfuel => run_trace_stop_in_sleep sC sS k i fuel hC hS hstop hfuel,
   fun hC hS hstop hfuel => run_trace_stop_in_cycle sC sS k i fuel hC hS hstop hfuel⟩

/-- C8 witness: stop arrives during the sleep of iteration 1; the trace is
two full cycle/sleep pairs and nothing after. -/
theorem run_stop_semantics_witness :
    run (fun _ => false) (fun j => j == 1) 4 0 true = cleanTrace 0 2 :=
  (run_stop_semantics (fun _ => false) (fun j => j == 1) 4 0 1).2.1
    (fun _ _ => rfl)
    (fun j hj => by
      have hj0 : j = 0 := by omega
      subst hj0
      rfl)
    rfl
    (by omega)

end FireGuard
